import Mathlib

/-!
Verification of the NovaPoshta API client (src/nova_poshta_api.py).

The client is shallowly embedded: Python JSON-like values become the
inductive type Val; machine floats used by the client (weights, money
amounts) are modelled as rationals; the HTTP transport is modelled by a
TransportOutcome parameter fed to every network-touching operation, and
operations that may return before reaching the network return an ApiAction
(local value, or the request that would be issued).
-/

set_option autoImplicit false

namespace NovaPoshtaApi

/-- Val is the type of Python/JSON values handled by the client: None,
booleans, integers, strings, lists and (insertion-ordered) dictionaries. -/
inductive Val where
  | null
  | bool (b : Bool)
  | int (n : Int)
  | str (s : String)
  | list (xs : List Val)
  | dict (kvs : List (String × Val))
  deriving Repr

/-- Boolean equality on Val, mirroring Python == on these shapes. -/
def Val.beq : Val → Val → Bool
  | .null, .null => true
  | .bool a, .bool b => a == b
  | .int a, .int b => a == b
  | .str a, .str b => a == b
  | .list xs, .list ys =>
      match xs, ys with
      | [], [] => true
      | x :: xs, y :: ys => Val.beq x y && Val.beq (.list xs) (.list ys)
      | _, _ => false
  | .dict xs, .dict ys =>
      match xs, ys with
      | [], [] => true
      | (k, x) :: xs, (l, y) :: ys => k == l && Val.beq x y && Val.beq (.dict xs) (.dict ys)
      | _, _ => false
  | _, _ => false

instance : BEq Val := ⟨Val.beq⟩

/-- Python truthiness of a Val: None, False, 0, and empty strings, lists
and dicts are falsy, everything else is truthy. -/
def truthy : Val → Bool
  | .null => false
  | .bool b => b
  | .int n => n != 0
  | .str s => !s.isEmpty
  | .list xs => !xs.isEmpty
  | .dict kvs => !kvs.isEmpty

/-- Python `a or b`: the left operand if truthy, else the right one. -/
def pyOr (a b : Val) : Val := if truthy a then a else b

/-- Dictionary lookup, `d.get(k)` without a default: some value or none. -/
def Val.get? : Val → String → Option Val
  | .dict kvs, k => kvs.lookup k
  | _, _ => none

/-- Dictionary lookup with default, Python `d.get(k, default)`. -/
def Val.getD (v : Val) (k : String) (d : Val) : Val := (v.get? k).getD d

/-- Whether a dictionary contains a key, Python `k in d`. -/
def hasKey (v : Val) (k : String) : Bool :=
  match v with
  | .dict kvs => kvs.any (fun p => p.1 == k)
  | _ => false

/-- Python `d[k] = v` on an insertion-ordered dict: replace in place when
the key exists, append otherwise. -/
def dictSet (kvs : List (String × Val)) (k : String) (v : Val) : List (String × Val) :=
  if kvs.any (fun p => p.1 == k) then
    kvs.map (fun p => if p.1 == k then (k, v) else p)
  else kvs ++ [(k, v)]

/-- The entries of a dict Val (empty for non-dicts). -/
def entriesOf : Val → List (String × Val)
  | .dict kvs => kvs
  | _ => []

/-- Python `{**base, **extra}` merging: entries of extra override base. -/
def mergeInto (base extra : List (String × Val)) : List (String × Val) :=
  extra.foldl (fun acc p => dictSet acc p.1 p.2) base

/-- The elements of a list Val (empty for non-lists). -/
def asList : Val → List Val
  | .list xs => xs
  | _ => []

/-- The characters of a string Val ("" for non-strings). -/
def strOf : Val → String
  | .str s => s
  | _ => ""

/-- Coercion of a Val to a Python int as used by the client: ints stay,
numeric strings parse, booleans map to 0/1, everything else to 0. -/
def pyInt : Val → Int
  | .int n => n
  | .str s => (s.toInt?).getD 0
  | .bool b => cond b 1 0
  | _ => 0

/-- Lowercasing of a string, Python str.lower (ASCII as in Char.toLower). -/
def lowerStr (s : String) : String := .mk (s.data.map Char.toLower)

/-- Whitespace trimming at both ends, Python str.strip(). -/
def trimStr (s : String) : String :=
  .mk (((s.data.dropWhile Char.isWhitespace).reverse.dropWhile Char.isWhitespace).reverse)

/-- Whether pat occurs as a contiguous run inside a character list. -/
def runWithin (pat : List Char) : List Char → Bool
  | [] => pat.isEmpty
  | c :: rest => pat.isPrefixOf (c :: rest) || runWithin pat rest

/-- Python substring membership `pat in s`. -/
def strContains (s pat : String) : Bool := runWithin pat.data s.data

/-- Python str() of the floats the client stringifies; floats are modelled
as rationals, and whole values render as in CPython (e.g. "0.0"). -/
def floatStr (q : ℚ) : String :=
  if q.den = 1 then toString q.num ++ ".0" else toString q

/-- Outcome of one HTTP POST/GET as seen by the client code: an HTTPError
raised by raise_for_status (carrying the response status code when the
response object is available), a network-level RequestException with no
response, or a 2xx response with a parsed JSON body. -/
inductive TransportOutcome where
  | httpError (code : Option Int) (msg : String)
  | netError (msg : String)
  | success (body : Val)

/-- NovaPoshtaAPI._post, lines 107-124: classify the transport outcome of
one JSON-RPC call into the uniform result envelope. The embedding is a
total function: no branch raises. -/
def _post (o : TransportOutcome) : Val :=
  match o with
  | .httpError code msg =>
      .dict [("status", .bool false), ("status_code", .int (code.getD 400)),
             ("error", .str msg)]
  | .netError msg =>
      .dict [("status", .bool false), ("status_code", .int 400), ("error", .str msg)]
  | .success body =>
      if !truthy (body.getD "success" (.bool false)) then
        let e1 := String.intercalate "; " ((asList (pyOr (body.getD "errors" .null) (.list []))).map strOf)
        let e2 := String.intercalate "; " ((asList (pyOr (body.getD "messageCodes" .null) (.list []))).map strOf)
        let msg := if e1 ≠ "" then e1 else if e2 ≠ "" then e2 else "API error"
        let code : Int := if strContains msg "API key" && strContains (lowerStr msg) "invalid" then 401 else 400
        .dict [("status", .bool false), ("status_code", .int code),
               ("error", .str msg), ("raw", body)]
      else
        .dict (mergeInto [("status", .bool true), ("status_code", .int 200)] (entriesOf body))

/-- NovaPoshtaAPI._list_ok, lines 126-135: pass failures through, convert a
success with falsy data to a 404 not-found value, and otherwise repackage
the data list with its paging info. -/
def _list_ok (resp : Val) (not_found_msg : String) : Val :=
  if !truthy (resp.getD "status" .null) then resp
  else
    let data := pyOr (resp.getD "data" .null) (.list [])
    if !truthy data then
      .dict [("status", .bool false), ("status_code", .int 404), ("error", .str not_found_msg)]
    else
      .dict [("status", .bool true), ("data", data), ("info", resp.getD "info" (.dict []))]

/-- NovaPoshtaAPI._map_city, lines 137-144: normalized shape of one city item. -/
def _map_city (c : Val) : Val :=
  .dict [("city_ref", c.getD "Ref" .null),
         ("city", c.getD "Description" .null),
         ("area", c.getD "AreaDescription" .null),
         ("settlement_type", c.getD "SettlementTypeDescription" .null)]

/-- NovaPoshtaAPI._map_wh, lines 146-160: normalized shape of one warehouse
item, with the weight-limit fields coerced to int and combined. -/
def _map_wh (w : Val) : Val :=
  let place := pyInt (pyOr (w.getD "PlaceMaxWeightAllowed" .null) (.int 0))
  let total := pyInt (pyOr (w.getD "TotalMaxWeightAllowed" .null) (.int 0))
  .dict [("number", .int (pyInt (pyOr (w.getD "Number" .null) (.int 0)))),
         ("address_ref", w.getD "Ref" .null),
         ("address", w.getD "Description" .null),
         ("index", w.getD "WarehouseIndex" .null),
         ("city_ref", w.getD "CityRef" .null),
         ("city", w.getD "CityDescription" .null),
         ("max_weight_allowed", .int (if total ≠ 0 then total else place)),
         ("max_weight_allowed_place", .int place),
         ("max_weight_allowed_total", .int total)]

/-- NovaPoshtaAPI._ceil, lines 162-165: ceiling of total over size, with the
divisor coerced to at least 1 (`max(1, int(size or 1))`). -/
def _ceil (total size : Int) : Int :=
  let s := max 1 (if size = 0 then 1 else size)
  (total + s - 1).ediv s

/-- The not-found message interpolated by find_city_by_name. -/
def cityNotFoundMsg (city : String) : String :=
  "City named \"" ++ city ++ "\" is not found"

/-- NovaPoshtaAPI.find_city_by_name, lines 172-190, with the transport
response abstracted into the outcome parameter o. -/
def find_city_by_name (city : String) (limit page : Int) (o : TransportOutcome) : Val :=
  let res := _post o
  let chk := _list_ok res (cityNotFoundMsg city)
  if !truthy (chk.getD "status" .null) then chk
  else
    let data := asList (chk.getD "data" .null)
    let exact := data.find? (fun x =>
      lowerStr (strOf (pyOr (x.getD "Description" .null) (.str ""))) == lowerStr city)
    let cities := match exact with
      | some e => [_map_city e]
      | none => data.map _map_city
    let total : Val := match exact with
      | some _ => .int 1
      | none => pyOr ((chk.getD "info" (.dict [])).getD "totalCount" .null) (.int cities.length)
    .dict [("status", .bool true), ("status_code", .int 200),
           ("cities", .list cities),
           ("total", total),
           ("total_pages", .int (_ceil (pyInt total) limit)),
           ("total_in_page", .int cities.length),
           ("current_page", .int page)]

/-- The not-found message interpolated by find_warehouse_in_city. -/
def warehouseNotFoundMsg (warehouse_number : Option Int) (city : String) : String :=
  let label_city := if city ≠ "" then " in \"" ++ city ++ "\"" else ""
  let label_wh := match warehouse_number with
    | some n => "#" ++ toString n
    | none => ""
  "Warehouse " ++ label_wh ++ " is not found" ++ label_city

/-- NovaPoshtaAPI.find_warehouse_in_city, lines 192-238, with the transport
response abstracted into the outcome parameter o (the optional filters
city_ref, warehouse_number, warehouse_string only shape the request and the
not-found message). -/
def find_warehouse_in_city (city_ref : Option String) (warehouse_number : Option Int)
    (warehouse_string : Option String) (city : String) (limit page : Int)
    (o : TransportOutcome) : Val :=
  let res := _post o
  let chk := _list_ok res (warehouseNotFoundMsg warehouse_number city)
  if !truthy (chk.getD "status" .null) then chk
  else
    let data := asList (chk.getD "data" .null)
    let total : Val := ((chk.getD "info" (.dict [])).get? "totalCount").getD (.int data.length)
    if pyInt total ≤ 1 ∧ data.isEmpty = false then
      .dict [("status", .bool true), ("status_code", .int 200),
             ("warehouses", _map_wh (data.headD .null)),
             ("total", total),
             ("total_pages", .int 1),
             ("total_in_page", .int 1),
             ("current_page", .int 1)]
    else
      .dict [("status", .bool true), ("status_code", .int 200),
             ("warehouses", .list (data.map _map_wh)),
             ("total", total),
             ("total_pages", .int (_ceil (pyInt total) limit)),
             ("total_in_page", .int (data.map _map_wh).length),
             ("current_page", .int page)]

/-- The not-found message interpolated by find_agents_by_property; property
is the rendering of the PersonProperty enum member in the f-string. -/
def agentsNotFoundMsg (property : String) : String :=
  "Agents by \"" ++ property ++ "\" property is not found"

/-- NovaPoshtaAPI.find_agents_by_property, lines 240-250, with the transport
response abstracted into the outcome parameter o. -/
def find_agents_by_property (property : String) (page : Int) (o : TransportOutcome) : Val :=
  let res := _post o
  let chk := _list_ok res (agentsNotFoundMsg property)
  if !truthy (chk.getD "status" .null) then chk
  else
    .dict [("status", .bool true), ("status_code", .int 200),
           ("agents", chk.getD "data" .null),
           ("total", ((chk.getD "info" (.dict [])).get? "totalCount").getD
              (.int (asList (chk.getD "data" .null)).length))]

/-- The getCounterpartyContactPersons step of get_sender_data and the
flattening of one sender, lines 341-361: the loop over the sender list.
contactO gives the transport outcome of the per-counterparty contact call,
keyed by the Ref value sent in the request. Except.error is the early
return that aborts the aggregation. -/
def sender_loop (contactO : Val → TransportOutcome) : List Val → Except Val (List Val)
  | [] => .ok []
  | s :: rest =>
      let contacts := _post (contactO (s.getD "Ref" .null))
      if !truthy (contacts.getD "status" .null) then .error contacts
      else
        let c0 := (asList (pyOr (contacts.getD "data" .null) (.list [.dict []]))).headD (.dict [])
        let record : Val := .dict
          [("agent_ref", s.getD "Ref" .null),
           ("agent_description", s.getD "Description" .null),
           ("agent_type", s.getD "CounterpartyType" .null),
           ("agent_edrpou", s.getD "EDRPOU" .null),
           ("agent_city_ref", s.getD "City" .null),
           ("agent_city", s.getD "CityDescription" .null),
           ("contact_ref", c0.getD "Ref" .null),
           ("first_name", c0.getD "FirstName" .null),
           ("last_name", c0.getD "LastName" .null),
           ("middle_name", c0.getD "MiddleName" .null),
           ("phone", c0.getD "Phones" .null),
           ("email", c0.getD "Email" .null)]
        match sender_loop contactO rest with
        | .error v => .error v
        | .ok out => .ok (record :: out)

/-- NovaPoshtaAPI.get_sender_data, lines 335-362: list the sender-role
counterparties (transport outcome listO), then aggregate one flattened
record per sender via sender_loop, failing fast on the first failed call. -/
def get_sender_data (listO : TransportOutcome) (contactO : Val → TransportOutcome) : Val :=
  let senders := find_agents_by_property "Sender" 1 listO
  if !truthy (senders.getD "status" .null) then senders
  else
    match sender_loop contactO (asList (senders.getD "agents" .null)) with
    | .error v => v
    | .ok out =>
        .dict [("status", .bool true), ("status_code", .int 200),
               ("senders", .list out),
               ("total", senders.getD "total" (.int out.length))]

/-- The normalized lookup key of one stored sender record used by
find_sender_by_full_name: each name field defaulted to "", stripped and
lowercased. -/
def senderKey (d : Val) : String × String × String :=
  (lowerStr (trimStr (strOf (pyOr (d.getD "first_name" .null) (.str "")))),
   lowerStr (trimStr (strOf (pyOr (d.getD "last_name" .null) (.str "")))),
   lowerStr (trimStr (strOf (pyOr (d.getD "middle_name" .null) (.str "")))))

/-- Insertion into the dict built by the comprehension in
find_sender_by_full_name: replace the value in place when the key exists,
append otherwise (Python dict semantics, later entries overwrite). -/
def keyInsert (acc : List ((String × String × String) × Val))
    (k : String × String × String) (v : Val) : List ((String × String × String) × Val) :=
  if acc.any (fun p => p.1 == k) then
    acc.map (fun p => if p.1 == k then (k, v) else p)
  else acc ++ [(k, v)]

/-- NovaPoshtaAPI.find_sender_by_full_name, lines 364-374: build the index
from normalized name triples to records, then look the query triple up. -/
def find_sender_by_full_name (first_name last_name middle_name : String)
    (data : List Val) : Option Val :=
  let idx := data.foldl (fun acc d => keyInsert acc (senderKey d) d) []
  idx.lookup (lowerStr (trimStr first_name), lowerStr (trimStr last_name),
              lowerStr (trimStr middle_name))

/-- Sender profile (dataclass NovaPoshtaSender, lines 44-53); the float
max_weight_allowed is modelled as a rational. -/
structure NovaPoshtaSender where
  city_identifier : String
  agent_identifier : String
  address_identifier : String
  agent_contact_identifier : String
  phone : String
  address : String
  department_number : Int
  max_weight_allowed : ℚ

/-- dataclass DeliveryReceiver, lines 56-58. -/
structure DeliveryReceiver where
  phone : String

/-- Receiver profile (dataclass NovaPoshtaReceiver, lines 61-70). -/
structure NovaPoshtaReceiver where
  city_identifier : String
  agent_identifier : String
  address_identifier : String
  agent_contact_identifier : String
  address : String
  department_number : Int
  max_weight_allowed : ℚ
  delivery_receiver : DeliveryReceiver

/-- Delivery descriptor (dataclass DeliveryInfo, lines 73-81). -/
structure DeliveryInfo where
  ttn : String
  estimate_order_price : ℚ
  payer : String
  comment : String := ""

/-- DeliveryInfo.get_payment_method_display, lines 80-81: always the fixed
constant PaymentMethod.NON_CASH.value, regardless of the stored payer. -/
def DeliveryInfo.get_payment_method_display (_ : DeliveryInfo) : String := "NonCash"

/-- Shipment aggregate (dataclass NovaPoshta, lines 84-94); the delivery
date keeps only the fields the client formats with strftime. -/
structure PyDate where
  day : Nat
  month : Nat
  year : Nat

/-- Zero-padded two-digit rendering used by strftime %d and %m. -/
def pad2 (n : Nat) : String := if n < 10 then "0" ++ toString n else toString n

/-- Python datetime.strftime with the format dd.mm.yyyy used by the client. -/
def PyDate.strftime_dmY (d : PyDate) : String :=
  pad2 d.day ++ "." ++ pad2 d.month ++ "." ++ toString d.year

/-- Shipment aggregate (dataclass NovaPoshta, lines 84-94). -/
structure NovaPoshta where
  sender : NovaPoshtaSender
  receiver : NovaPoshtaReceiver
  specified_weight : ℚ
  with_backward_delivery : Bool
  backward_amount : ℚ
  postpaid_amount : ℚ
  delivery_identifier : String
  delivery_date : PyDate
  delivery : DeliveryInfo

/-- enum CargoType, lines 25-28. -/
inductive CargoType where
  | CARGO
  | PARCEL
  | MONEY

/-- Wire string of a CargoType member. -/
def CargoType.value : CargoType → String
  | .CARGO => "Cargo"
  | .PARCEL => "Parcel"
  | .MONEY => "Money"

/-- NovaPoshtaAPI.set_additional_parameters, lines 380-407: force the
Parcel cargo type and a fixed one-seat volumetric descriptor when either
address contains the postal-machine marker WarehouseType.POST_MACHINE.value
("Postomat"), and attach the backward-delivery descriptor when asked. -/
def set_additional_parameters (sender : NovaPoshtaSender) (receiver : NovaPoshtaReceiver)
    (specified_weight : ℚ) (cargo_type : CargoType := .CARGO)
    (backward_delivery : Bool := false) (backward_amount : String := " ")
    (payer_type : String := "Sender") : Val :=
  let postomat := strContains sender.address "Postomat" || strContains receiver.address "Postomat"
  let cargo_type := if postomat then CargoType.PARCEL else cargo_type
  let options_seat : Val :=
    if postomat then
      .list [.dict [("volumetricVolume", .str "1"),
                    ("volumetricWidth", .str "40"),
                    ("volumetricLength", .str "40"),
                    ("volumetricHeight", .str "30"),
                    ("weight", .str (floatStr specified_weight))]]
    else .null
  let backward_delivery_data : Val :=
    if backward_delivery then
      .list [.dict [("PayerType", .str payer_type),
                    ("CargoType", .str "Money"),
                    ("RedeliveryString", .str backward_amount)]]
    else .null
  .dict [("options_seat", options_seat),
         ("cargo_type", .str cargo_type.value),
         ("backward_delivery_data", backward_delivery_data)]

/-- Result of an operation that may return locally before the network: a
local value, or the JSON-RPC request (model, method, properties) issued. -/
inductive ApiAction where
  | localResult (v : Val)
  | request (model method : String) (props : Val)

/-- The properties of the request issued by an ApiAction (null when the
action returned locally without a network call). -/
def requestProps : ApiAction → Val
  | .request _ _ p => p
  | .localResult _ => .null

/-- NovaPoshtaAPI.create_waybill, lines 409-462: local weight validation,
then the full InternetDocument/save property set, conditional on the
payment method. -/
def create_waybill (sender : NovaPoshtaSender) (receiver : NovaPoshtaReceiver)
    (declared_price : String) (delivery_date : PyDate) (specified_weight : ℚ)
    (payment_method : String := "NonCash") (payer_type : String := "Sender")
    (cargo_type : CargoType := .CARGO) (comment : String := "")
    (goods_count : Int := 1) (with_backward_delivery : Bool := false)
    (backward_amount : ℚ := 0) (postpaid_amount : ℚ := 0) : ApiAction :=
  if sender.max_weight_allowed = 0 ∨ receiver.max_weight_allowed = 0 then
    .localResult (.dict [("status", .bool false), ("status_code", .int 400),
                         ("error", .str "Invalid max weight")])
  else if specified_weight > sender.max_weight_allowed then
    .localResult (.dict [("status", .bool false), ("status_code", .int 400),
                         ("error", .str "Too much specified weight (sender)")])
  else if specified_weight > receiver.max_weight_allowed then
    .localResult (.dict [("status", .bool false), ("status_code", .int 400),
                         ("error", .str "Too much specified weight (receiver)")])
  else
    let ap := set_additional_parameters sender receiver specified_weight cargo_type
      with_backward_delivery (floatStr backward_amount) payer_type
    let base : List (String × Val) :=
      [("PayerType", .str payer_type),
       ("PaymentMethod", .str payment_method),
       ("DateTime", .str delivery_date.strftime_dmY),
       ("CargoType", ap.getD "cargo_type" .null),
       ("Weight", .str (floatStr specified_weight)),
       ("ServiceType", .str "WarehouseWarehouse"),
       ("SeatsAmount", .int goods_count),
       ("Description", .str (if comment ≠ "" then comment else "Доставка у відділення")),
       ("Cost", .str declared_price),
       ("CitySender", .str sender.city_identifier),
       ("Sender", .str sender.agent_identifier),
       ("SenderAddress", .str sender.address_identifier),
       ("ContactSender", .str sender.agent_contact_identifier),
       ("SendersPhone", .str sender.phone),
       ("RecipientsPhone", .str receiver.delivery_receiver.phone),
       ("CityRecipient", .str receiver.city_identifier),
       ("Recipient", .str receiver.agent_identifier),
       ("RecipientAddress", .str receiver.address_identifier),
       ("ContactRecipient", .str receiver.agent_contact_identifier),
       ("OptionsSeat", ap.getD "options_seat" .null)]
    let props :=
      if payment_method = "Cash" then
        base ++ [("BackwardDeliveryData", ap.getD "backward_delivery_data" .null)]
      else
        base ++ [("AfterpaymentOnGoodsCost", .str (floatStr postpaid_amount))]
    .request "InternetDocument" "save" (.dict props)

/-- NovaPoshtaAPI.update_waybill, lines 467-504: rebuild the property set
from a shipment aggregate, resolving the payment method through
DeliveryInfo.get_payment_method_display. -/
def update_waybill (nova_poshta : NovaPoshta) (goods_count : Int := 1) : ApiAction :=
  let ap := set_additional_parameters nova_poshta.sender nova_poshta.receiver
    nova_poshta.specified_weight .CARGO nova_poshta.with_backward_delivery
    (floatStr nova_poshta.backward_amount) nova_poshta.delivery.payer
  let pm := nova_poshta.delivery.get_payment_method_display
  let base : List (String × Val) :=
    [("Ref", .str nova_poshta.delivery_identifier),
     ("PayerType", .str nova_poshta.delivery.payer),
     ("PaymentMethod", .str pm),
     ("DateTime", .str nova_poshta.delivery_date.strftime_dmY),
     ("CargoType", ap.getD "cargo_type" .null),
     ("Weight", .str (floatStr nova_poshta.specified_weight)),
     ("ServiceType", .str "WarehouseWarehouse"),
     ("SeatsAmount", .int goods_count),
     ("Description", .str (if nova_poshta.delivery.comment ≠ "" then
        nova_poshta.delivery.comment else "Доставка у відділення")),
     ("Cost", .str (floatStr nova_poshta.delivery.estimate_order_price)),
     ("CitySender", .str nova_poshta.sender.city_identifier),
     ("Sender", .str nova_poshta.sender.agent_identifier),
     ("SenderAddress", .str nova_poshta.sender.address_identifier),
     ("ContactSender", .str nova_poshta.sender.agent_contact_identifier),
     ("SendersPhone", .str nova_poshta.sender.phone),
     ("RecipientsPhone", .str nova_poshta.receiver.delivery_receiver.phone),
     ("CityRecipient", .str nova_poshta.receiver.city_identifier),
     ("Recipient", .str nova_poshta.receiver.agent_identifier),
     ("RecipientAddress", .str nova_poshta.receiver.address_identifier),
     ("ContactRecipient", .str nova_poshta.receiver.agent_contact_identifier),
     ("VolumeGeneral", .null)]
  let props :=
    if pm = "Cash" then
      base ++ [("BackwardDeliveryData", ap.getD "backward_delivery_data" .null)]
    else
      base ++ [("AfterpaymentOnGoodsCost", .str (floatStr nova_poshta.postpaid_amount))]
  .request "InternetDocument" "update" (.dict props)

/-- Sender fixture with a negative maximum allowed weight, used to refute
the quantified form of the local-validation claim. -/
def senderNegWeight : NovaPoshtaSender :=
  { city_identifier := "c", agent_identifier := "a", address_identifier := "ad",
    agent_contact_identifier := "ac", phone := "p", address := "Main st.",
    department_number := 1, max_weight_allowed := -1 }

/-- Receiver fixture with a valid maximum allowed weight. -/
def receiverTen : NovaPoshtaReceiver :=
  { city_identifier := "c2", agent_identifier := "a2", address_identifier := "ad2",
    agent_contact_identifier := "ac2", address := "Main st. 2",
    department_number := 2, max_weight_allowed := 10,
    delivery_receiver := { phone := "rp" } }

/-- Upstream city reply fixture: success, one item, totalCount present and
equal to 0. -/
def cityBodyC5 : Val :=
  .dict [("success", .bool true),
         ("data", .list [.dict [("Ref", .str "r1"), ("Description", .str "CityA")]]),
         ("info", .dict [("totalCount", .int 0)])]

/-- Upstream warehouse reply fixture: success, one item, totalCount present
and equal to 0. -/
def whBodyC6 : Val :=
  .dict [("success", .bool true),
         ("data", .list [.dict [("Ref", .str "w1")]]),
         ("info", .dict [("totalCount", .int 0)])]

/-- Upstream warehouse reply fixture: success, two items, totalCount 2. -/
def whBodyC6b : Val :=
  .dict [("success", .bool true),
         ("data", .list [.dict [("Ref", .str "w1")], .dict [("Ref", .str "w2")]]),
         ("info", .dict [("totalCount", .int 2)])]

/-- The normalized query key built by find_sender_by_full_name from its
three name arguments. -/
def queryKey (f l m : String) : String × String × String :=
  (lowerStr (trimStr f), lowerStr (trimStr l), lowerStr (trimStr m))

/-- Stored sender record fixture. -/
def senderRecA : Val :=
  .dict [("first_name", .str "Ann"), ("last_name", .str "Lee"), ("middle_name", .str "May")]

/-- The same stored sender record with the first name cased differently. -/
def senderRecB : Val :=
  .dict [("first_name", .str "ANN"), ("last_name", .str "Lee"), ("middle_name", .str "May")]

/-- Oracle fixture: every contact call succeeds with an empty data list. -/
def contactsEmptyO : Val → TransportOutcome :=
  fun _ => .success (.dict [("success", .bool true), ("data", .list [])])

/-- Counterparty fixture for the aggregation. -/
def agentS : Val := .dict [("Ref", .str "ag1"), ("Description", .str "Dm")]

/-- Listing fixture: one sender-role counterparty. -/
def agentsListO : TransportOutcome :=
  .success (.dict [("success", .bool true), ("data", .list [agentS])])

/-- C1: for every call through _post, a non-2xx HTTP response yields the
value with status false, status_code equal to the transport status code
(or 400 when the response object is unavailable) and the error message,
and a network-level failure with no response yields status false with
status_code 400; both failure classes are returned as plain values (the
embedding of _post is a total function, so no exception reaches the
caller). -/
theorem post_transport_failures_are_values (code : Option Int) (m1 m2 : String) :
    _post (.httpError code m1) =
      .dict [("status", .bool false), ("status_code", .int (code.getD 400)),
             ("error", .str m1)]
  ∧ _post (.netError m2) =
      .dict [("status", .bool false), ("status_code", .int 400), ("error", .str m2)] :=
  ⟨rfl, rfl⟩

/-- C2: _list_ok passes a failed response through unchanged, converts a
succeeded response with empty or absent data into the 404 value carrying
the caller-supplied message, and otherwise repackages the data list with
its paging info (empty mapping when absent); and each of the three
list-producing operations applies this normalizer to its posted response,
surfacing the normalized failure unchanged. -/
theorem list_ok_normalizes_and_is_shared (resp : Val) (msg city property : String)
    (limit page : Int) (cr : Option String) (wn : Option Int) (ws : Option String)
    (cty : String) (o : TransportOutcome) :
    (truthy (resp.getD "status" .null) = false → _list_ok resp msg = resp)
  ∧ (truthy (resp.getD "status" .null) = true →
       truthy (pyOr (resp.getD "data" .null) (.list [])) = false →
       _list_ok resp msg =
         .dict [("status", .bool false), ("status_code", .int 404), ("error", .str msg)])
  ∧ (truthy (resp.getD "status" .null) = true →
       truthy (pyOr (resp.getD "data" .null) (.list [])) = true →
       _list_ok resp msg =
         .dict [("status", .bool true), ("data", pyOr (resp.getD "data" .null) (.list [])),
                ("info", resp.getD "info" (.dict []))])
  ∧ (truthy ((_list_ok (_post o) (cityNotFoundMsg city)).getD "status" .null) = false →
       find_city_by_name city limit page o = _list_ok (_post o) (cityNotFoundMsg city))
  ∧ (truthy ((_list_ok (_post o) (warehouseNotFoundMsg wn cty)).getD "status" .null) = false →
       find_warehouse_in_city cr wn ws cty limit page o =
         _list_ok (_post o) (warehouseNotFoundMsg wn cty))
  ∧ (truthy ((_list_ok (_post o) (agentsNotFoundMsg property)).getD "status" .null) = false →
       find_agents_by_property property page o = _list_ok (_post o) (agentsNotFoundMsg property)) := by
  refine ⟨fun h => ?_, fun h hd => ?_, fun h hd => ?_, fun h => ?_, fun h => ?_, fun h => ?_⟩
  · simp [_list_ok, h]
  · simp [_list_ok, h, hd]
  · simp [_list_ok, h, hd]
  · simp [find_city_by_name, h]
  · simp [find_warehouse_in_city, h]
  · simp [find_agents_by_property, h]

/-- Witness for C2: the three normalizer cases and the three operations at
concrete inputs. -/
theorem list_ok_normalizes_and_is_shared_witness :
    _list_ok (.dict [("status", .bool false)]) "m" = .dict [("status", .bool false)]
  ∧ _list_ok (.dict [("status", .bool true)]) "m" =
      .dict [("status", .bool false), ("status_code", .int 404), ("error", .str "m")]
  ∧ _list_ok (.dict [("status", .bool true), ("data", .list [.int 7])]) "m" =
      .dict [("status", .bool true), ("data", .list [.int 7]), ("info", .dict [])]
  ∧ find_city_by_name "K" 50 1 (.netError "down") =
      _list_ok (_post (.netError "down")) (cityNotFoundMsg "K")
  ∧ find_warehouse_in_city none none none "" 50 1 (.netError "down") =
      _list_ok (_post (.netError "down")) (warehouseNotFoundMsg none "")
  ∧ find_agents_by_property "Sender" 1 (.netError "down") =
      _list_ok (_post (.netError "down")) (agentsNotFoundMsg "Sender") :=
  ⟨(list_ok_normalizes_and_is_shared (.dict [("status", .bool false)]) "m" "" ""
      0 0 none none none "" (.netError "")).1 rfl,
   (list_ok_normalizes_and_is_shared (.dict [("status", .bool true)]) "m" "" ""
      0 0 none none none "" (.netError "")).2.1 rfl rfl,
   (list_ok_normalizes_and_is_shared
      (.dict [("status", .bool true), ("data", .list [.int 7])]) "m" "" ""
      0 0 none none none "" (.netError "")).2.2.1 rfl rfl,
   (list_ok_normalizes_and_is_shared (.dict []) "" "K" ""
      50 1 none none none "" (.netError "down")).2.2.2.1 rfl,
   (list_ok_normalizes_and_is_shared (.dict []) "" "" ""
      50 1 none none none "" (.netError "down")).2.2.2.2.1 rfl,
   (list_ok_normalizes_and_is_shared (.dict []) "" "" "Sender"
      50 1 none none none "" (.netError "down")).2.2.2.2.2 rfl⟩

/-- C3 counterexample: with sender.max_weight_allowed = -1 (not positive,
but truthy in Python, so the `not sender.max_weight_allowed` guard does not
fire) and specified_weight = 1, create_waybill returns the sender-specific
overweight message, not the claimed "Invalid max weight" value. -/
theorem create_waybill_nonpositive_max_counterexample :
    senderNegWeight.max_weight_allowed ≤ 0
  ∧ create_waybill senderNegWeight receiverTen "10" ⟨1, 2, 2024⟩ 1 =
      .localResult (.dict [("status", .bool false), ("status_code", .int 400),
                           ("error", .str "Too much specified weight (sender)")])
  ∧ ("Too much specified weight (sender)" : String) ≠ "Invalid max weight" :=
  ⟨by decide, rfl, by decide⟩

/-- C3 amended: create_waybill validates locally and returns a local value
(ApiAction.localResult, i.e. no request is issued) with status 400 when
either maximum allowed weight is zero (Python falsy) with the message
"Invalid max weight"; otherwise, when the specified weight exceeds the
sender maximum, with the sender-specific message; otherwise, when it
exceeds the receiver maximum, with the receiver-specific message. -/
theorem create_waybill_local_validation (sender : NovaPoshtaSender)
    (receiver : NovaPoshtaReceiver) (dp : String) (dd : PyDate) (w : ℚ)
    (pm pt : String) (ct : CargoType) (cm : String) (gc : Int) (bd : Bool) (ba pa : ℚ) :
    (sender.max_weight_allowed = 0 ∨ receiver.max_weight_allowed = 0 →
       create_waybill sender receiver dp dd w pm pt ct cm gc bd ba pa =
         .localResult (.dict [("status", .bool false), ("status_code", .int 400),
                              ("error", .str "Invalid max weight")]))
  ∧ (¬ sender.max_weight_allowed = 0 → ¬ receiver.max_weight_allowed = 0 →
       w > sender.max_weight_allowed →
       create_waybill sender receiver dp dd w pm pt ct cm gc bd ba pa =
         .localResult (.dict [("status", .bool false), ("status_code", .int 400),
                              ("error", .str "Too much specified weight (sender)")]))
  ∧ (¬ sender.max_weight_allowed = 0 → ¬ receiver.max_weight_allowed = 0 →
       ¬ w > sender.max_weight_allowed → w > receiver.max_weight_allowed →
       create_waybill sender receiver dp dd w pm pt ct cm gc bd ba pa =
         .localResult (.dict [("status", .bool false), ("status_code", .int 400),
                              ("error", .str "Too much specified weight (receiver)")])) := by
  refine ⟨fun h => ?_, fun h1 h2 h3 => ?_, fun h1 h2 h3 h4 => ?_⟩
  · simp only [create_waybill]
    rw [if_pos h]
  · simp only [create_waybill]
    rw [if_neg (by tauto), if_pos h3]
  · simp only [create_waybill]
    rw [if_neg (by tauto), if_neg h3, if_pos h4]

/-- Witness for C3 amended: the three validation outcomes at concrete
weights. -/
theorem create_waybill_local_validation_witness :
    create_waybill { senderNegWeight with max_weight_allowed := 0 } receiverTen
        "10" ⟨1, 2, 2024⟩ 1 =
      .localResult (.dict [("status", .bool false), ("status_code", .int 400),
                           ("error", .str "Invalid max weight")])
  ∧ create_waybill { senderNegWeight with max_weight_allowed := 5 } receiverTen
        "10" ⟨1, 2, 2024⟩ 6 =
      .localResult (.dict [("status", .bool false), ("status_code", .int 400),
                           ("error", .str "Too much specified weight (sender)")])
  ∧ create_waybill { senderNegWeight with max_weight_allowed := 20 }
        { receiverTen with max_weight_allowed := 5 } "10" ⟨1, 2, 2024⟩ 6 =
      .localResult (.dict [("status", .bool false), ("status_code", .int 400),
                           ("error", .str "Too much specified weight (receiver)")]) :=
  ⟨(create_waybill_local_validation _ _ "10" ⟨1, 2, 2024⟩ 1 "NonCash" "Sender"
      .CARGO "" 1 false 0 0).1 (Or.inl rfl),
   (create_waybill_local_validation _ _ "10" ⟨1, 2, 2024⟩ 6 "NonCash" "Sender"
      .CARGO "" 1 false 0 0).2.1 (by decide) (by decide) (by decide),
   (create_waybill_local_validation _ _ "10" ⟨1, 2, 2024⟩ 6 "NonCash" "Sender"
      .CARGO "" 1 false 0 0).2.2 (by decide) (by decide) (by decide) (by decide)⟩

/-- C4: whenever create_waybill issues a request, its property set contains
BackwardDeliveryData exactly when the payment method is "Cash" and
AfterpaymentOnGoodsCost (bound to the stringified postpaid amount) exactly
otherwise, and never both keys at once. -/
theorem create_waybill_cash_xor_afterpayment (sender : NovaPoshtaSender)
    (receiver : NovaPoshtaReceiver) (dp : String) (dd : PyDate) (w : ℚ)
    (pm pt : String) (ct : CargoType) (cm : String) (gc : Int) (bd : Bool) (ba pa : ℚ)
    (mo me : String) (props : Val)
    (h : create_waybill sender receiver dp dd w pm pt ct cm gc bd ba pa =
           .request mo me props) :
    hasKey props "BackwardDeliveryData" = (pm == "Cash")
  ∧ hasKey props "AfterpaymentOnGoodsCost" = (!(pm == "Cash"))
  ∧ ¬ (hasKey props "BackwardDeliveryData" = true
        ∧ hasKey props "AfterpaymentOnGoodsCost" = true)
  ∧ (pm ≠ "Cash" → props.getD "AfterpaymentOnGoodsCost" .null = .str (floatStr pa)) := by
  simp only [create_waybill] at h
  split at h
  · exact absurd h (by simp)
  · split at h
    · exact absurd h (by simp)
    · split at h
      · exact absurd h (by simp)
      · by_cases hc : pm = "Cash"
        · rw [if_pos hc] at h
          obtain ⟨-, -, hp⟩ := ApiAction.request.inj h
          subst hp hc
          exact ⟨rfl, rfl, fun hx => Bool.noConfusion hx.2, fun hne => absurd rfl hne⟩
        · rw [if_neg hc] at h
          obtain ⟨-, -, hp⟩ := ApiAction.request.inj h
          subst hp
          have hb : (pm == "Cash") = false := by
            simp [hc]
          refine ⟨?_, ?_, fun hx => Bool.noConfusion hx.1, fun _ => rfl⟩
          · rw [hb]; rfl
          · rw [hb]; rfl

/-- Witness for C4: a non-cash waybill request contains
AfterpaymentOnGoodsCost and no BackwardDeliveryData. -/
theorem create_waybill_cash_xor_afterpayment_witness :
    hasKey (requestProps (create_waybill { senderNegWeight with max_weight_allowed := 5 }
        receiverTen "10" ⟨1, 2, 2024⟩ 1)) "BackwardDeliveryData" = ("NonCash" == "Cash")
  ∧ hasKey (requestProps (create_waybill { senderNegWeight with max_weight_allowed := 5 }
        receiverTen "10" ⟨1, 2, 2024⟩ 1)) "AfterpaymentOnGoodsCost" = (!("NonCash" == "Cash"))
  ∧ ¬ (hasKey (requestProps (create_waybill { senderNegWeight with max_weight_allowed := 5 }
        receiverTen "10" ⟨1, 2, 2024⟩ 1)) "BackwardDeliveryData" = true
      ∧ hasKey (requestProps (create_waybill { senderNegWeight with max_weight_allowed := 5 }
        receiverTen "10" ⟨1, 2, 2024⟩ 1)) "AfterpaymentOnGoodsCost" = true)
  ∧ (("NonCash" : String) ≠ "Cash" →
      (requestProps (create_waybill { senderNegWeight with max_weight_allowed := 5 }
        receiverTen "10" ⟨1, 2, 2024⟩ 1)).getD "AfterpaymentOnGoodsCost" .null =
        .str (floatStr 0)) :=
  create_waybill_cash_xor_afterpayment { senderNegWeight with max_weight_allowed := 5 }
    receiverTen "10" ⟨1, 2, 2024⟩ 1 "NonCash" "Sender" .CARGO "" 1 false 0 0
    "InternetDocument" "save" _ rfl

/-- C5 counterexample: on a successful reply with a non-empty data list, no
exact match, and totalCount present but equal to 0 (falsy in Python), the
code takes the list length 1 as total, while the claim prescribes the
upstream totalCount 0 (the claim allows the length only when totalCount is
absent). -/
theorem find_city_totalcount_zero_counterexample :
    (_post (.success cityBodyC5)).getD "status" .null = .bool true
  ∧ (cityBodyC5.getD "info" .null).getD "totalCount" .null = .int 0
  ∧ (asList ((_list_ok (_post (.success cityBodyC5)) (cityNotFoundMsg "X")).getD "data" .null)).find?
      (fun x => lowerStr (strOf (pyOr (x.getD "Description" .null) (.str ""))) == lowerStr "X") = none
  ∧ (find_city_by_name "X" 50 1 (.success cityBodyC5)).getD "total" .null = .int 1
  ∧ Val.int 1 ≠ Val.int 0 :=
  ⟨rfl, rfl, rfl, rfl, fun h => absurd (Val.int.inj h) (by decide)⟩

/-- C5 amended: on every normalized success, find_city_by_name returns one
mapped city and total 1 when some item's Description equals the query
case-insensitively (the first such item, all others discarded), and
otherwise every item mapped, with total the upstream totalCount when
truthy, else the list length (the original claim said "when absent"); and
_ceil t l is the ceiling of t over max(1, l or 1), whose divisor is
positive also for l at most 0, so no division by zero occurs. -/
theorem find_city_by_name_success_spec (city : String) (limit page : Int)
    (o : TransportOutcome) (chk : Val)
    (hchk : chk = _list_ok (_post o) (cityNotFoundMsg city))
    (hst : truthy (chk.getD "status" .null) = true) :
    (∀ e, (asList (chk.getD "data" .null)).find?
        (fun x => lowerStr (strOf (pyOr (x.getD "Description" .null) (.str ""))) == lowerStr city) = some e →
      find_city_by_name city limit page o =
        .dict [("status", .bool true), ("status_code", .int 200),
               ("cities", .list [_map_city e]),
               ("total", .int 1),
               ("total_pages", .int (_ceil 1 limit)),
               ("total_in_page", .int 1),
               ("current_page", .int page)])
  ∧ ((asList (chk.getD "data" .null)).find?
        (fun x => lowerStr (strOf (pyOr (x.getD "Description" .null) (.str ""))) == lowerStr city) = none →
      find_city_by_name city limit page o =
        .dict [("status", .bool true), ("status_code", .int 200),
               ("cities", .list ((asList (chk.getD "data" .null)).map _map_city)),
               ("total", pyOr ((chk.getD "info" (.dict [])).getD "totalCount" .null)
                          (.int ((asList (chk.getD "data" .null)).map _map_city).length)),
               ("total_pages", .int (_ceil (pyInt (pyOr ((chk.getD "info" (.dict [])).getD "totalCount" .null)
                          (.int ((asList (chk.getD "data" .null)).map _map_city).length))) limit)),
               ("total_in_page", .int ((asList (chk.getD "data" .null)).map _map_city).length),
               ("current_page", .int page)])
  ∧ (∀ t l : Int, 0 < max 1 (if l = 0 then 1 else l)
       ∧ max 1 (if l = 0 then 1 else l) * _ceil t l ≥ t
       ∧ max 1 (if l = 0 then 1 else l) * (_ceil t l - 1) < t) := by
  subst hchk
  refine ⟨fun e he => ?_, fun he => ?_, fun t l => ?_⟩
  · simp only [find_city_by_name, hst, Bool.not_true, Bool.false_eq_true, if_false, he]
    norm_num [pyInt]
  · simp only [find_city_by_name, hst, Bool.not_true, Bool.false_eq_true, if_false, he]
  · have hs : 0 < max 1 (if l = 0 then 1 else l) := lt_of_lt_of_le Int.one_pos (le_max_left 1 _)
    refine ⟨hs, ?_, ?_⟩
    all_goals
      simp only [_ceil]
      set s := max 1 (if l = 0 then 1 else l) with hsdef
      have hdm := Int.ediv_add_emod (t + s - 1) s
      have hr0 : 0 ≤ (t + s - 1) % s := Int.emod_nonneg _ (ne_of_gt hs)
      have hrs : (t + s - 1) % s < s := Int.emod_lt_of_pos _ hs
      have hdiv : (t + s - 1) / s = (t + s - 1).ediv s := rfl
      rw [hdiv] at hdm
    · linarith
    · have hmul : s * ((t + s - 1).ediv s - 1) = s * ((t + s - 1).ediv s) - s := by ring
      linarith

/-- Witness for C5 amended: the exact-match case, the no-match case, and
the ceiling property at concrete values. -/
theorem find_city_by_name_success_spec_witness :
    find_city_by_name "citya" 50 1 (.success cityBodyC5) =
      .dict [("status", .bool true), ("status_code", .int 200),
             ("cities", .list [_map_city (.dict [("Ref", .str "r1"), ("Description", .str "CityA")])]),
             ("total", .int 1),
             ("total_pages", .int (_ceil 1 50)),
             ("total_in_page", .int 1),
             ("current_page", .int 1)]
  ∧ find_city_by_name "X" 50 1 (.success cityBodyC5) =
      .dict [("status", .bool true), ("status_code", .int 200),
             ("cities", .list ((asList ((_list_ok (_post (.success cityBodyC5)) (cityNotFoundMsg "X")).getD "data" .null)).map _map_city)),
             ("total", pyOr (((_list_ok (_post (.success cityBodyC5)) (cityNotFoundMsg "X")).getD "info" (.dict [])).getD "totalCount" .null)
                        (.int ((asList ((_list_ok (_post (.success cityBodyC5)) (cityNotFoundMsg "X")).getD "data" .null)).map _map_city).length))
  ,
             ("total_pages", .int (_ceil (pyInt (pyOr (((_list_ok (_post (.success cityBodyC5)) (cityNotFoundMsg "X")).getD "info" (.dict [])).getD "totalCount" .null)
                        (.int ((asList ((_list_ok (_post (.success cityBodyC5)) (cityNotFoundMsg "X")).getD "data" .null)).map _map_city).length))) 50)),
             ("total_in_page", .int ((asList ((_list_ok (_post (.success cityBodyC5)) (cityNotFoundMsg "X")).getD "data" .null)).map _map_city).length),
             ("current_page", .int 1)]
  ∧ (0 < max 1 (if (0 : Int) = 0 then 1 else (0 : Int))
       ∧ max 1 (if (0 : Int) = 0 then 1 else (0 : Int)) * _ceil 5 0 ≥ 5
       ∧ max 1 (if (0 : Int) = 0 then 1 else (0 : Int)) * (_ceil 5 0 - 1) < 5) :=
  ⟨(find_city_by_name_success_spec "citya" 50 1 (.success cityBodyC5) _ rfl rfl).1
     (.dict [("Ref", .str "r1"), ("Description", .str "CityA")]) rfl,
   (find_city_by_name_success_spec "X" 50 1 (.success cityBodyC5) _ rfl rfl).2.1 rfl,
   (find_city_by_name_success_spec "X" 50 1 (.success cityBodyC5) _ rfl rfl).2.2 5 0⟩

/-- C6 counterexample: with upstream totalCount 0 and one returned item,
the code takes the single-mapping branch but reports total 0 (the upstream
value), not total 1 as the claim states. -/
theorem find_warehouse_total_counterexample :
    (whBodyC6.getD "info" .null).getD "totalCount" .null = .int 0
  ∧ (find_warehouse_in_city none none none "" 50 1 (.success whBodyC6)).getD "warehouses" .null =
      _map_wh (.dict [("Ref", .str "w1")])
  ∧ (find_warehouse_in_city none none none "" 50 1 (.success whBodyC6)).getD "total" .null = .int 0
  ∧ Val.int 0 ≠ Val.int 1 :=
  ⟨rfl, rfl, rfl, fun h => absurd (Val.int.inj h) (by decide)⟩

/-- C6 amended: on a normalized success, when the total (upstream
totalCount, or the list length when the key is absent) is at most 1 and at
least one item was returned, find_warehouse_in_city binds warehouses to the
single mapped item (not a one-element list), with total carried over
unchanged (hence equal to the upstream totalCount, not always 1) and
total_pages 1; otherwise warehouses is the list of all mapped items with
pagination derived from totalCount, limit and page. -/
theorem find_warehouse_in_city_success_spec (cr : Option String) (wn : Option Int)
    (ws : Option String) (cty : String) (limit page : Int) (o : TransportOutcome)
    (chk : Val) (hchk : chk = _list_ok (_post o) (warehouseNotFoundMsg wn cty))
    (hst : truthy (chk.getD "status" .null) = true)
    (data : List Val) (hdata : data = asList (chk.getD "data" .null))
    (total : Val)
    (htotal : total = ((chk.getD "info" (.dict [])).get? "totalCount").getD (.int data.length)) :
    (pyInt total ≤ 1 → data.isEmpty = false →
       find_warehouse_in_city cr wn ws cty limit page o =
         .dict [("status", .bool true), ("status_code", .int 200),
                ("warehouses", _map_wh (data.headD .null)),
                ("total", total),
                ("total_pages", .int 1),
                ("total_in_page", .int 1),
                ("current_page", .int 1)])
  ∧ (¬ (pyInt total ≤ 1 ∧ data.isEmpty = false) →
       find_warehouse_in_city cr wn ws cty limit page o =
         .dict [("status", .bool true), ("status_code", .int 200),
                ("warehouses", .list (data.map _map_wh)),
                ("total", total),
                ("total_pages", .int (_ceil (pyInt total) limit)),
                ("total_in_page", .int (data.map _map_wh).length),
                ("current_page", .int page)]) := by
  subst hchk
  subst hdata
  subst htotal
  refine ⟨fun h1 h2 => ?_, fun h => ?_⟩
  · simp only [find_warehouse_in_city, hst, Bool.not_true, Bool.false_eq_true, if_false]
    rw [if_pos ⟨h1, h2⟩]
  · simp only [find_warehouse_in_city, hst, Bool.not_true, Bool.false_eq_true, if_false]
    rw [if_neg h]

/-- Witness for C6 amended: the single-mapping branch at one item and the
list branch at two items. -/
theorem find_warehouse_in_city_success_spec_witness :
    find_warehouse_in_city none none none "" 50 1 (.success whBodyC6) =
      .dict [("status", .bool true), ("status_code", .int 200),
             ("warehouses", _map_wh ((
               [(.dict [("Ref", .str "w1")] : Val)]).headD .null)),
             ("total", .int 0),
             ("total_pages", .int 1),
             ("total_in_page", .int 1),
             ("current_page", .int 1)]
  ∧ find_warehouse_in_city none none none "" 50 1 (.success whBodyC6b) =
      .dict [("status", .bool true), ("status_code", .int 200),
             ("warehouses", .list (([(.dict [("Ref", .str "w1")] : Val),
                                     .dict [("Ref", .str "w2")]]).map _map_wh)),
             ("total", .int 2),
             ("total_pages", .int (_ceil (pyInt (.int 2)) 50)),
             ("total_in_page", .int (([(.dict [("Ref", .str "w1")] : Val),
                                       .dict [("Ref", .str "w2")]]).map _map_wh).length),
             ("current_page", .int 1)] :=
  ⟨(find_warehouse_in_city_success_spec none none none "" 50 1 (.success whBodyC6)
      _ rfl rfl [.dict [("Ref", .str "w1")]] rfl (.int 0) rfl).1 (by decide) rfl,
   (find_warehouse_in_city_success_spec none none none "" 50 1 (.success whBodyC6b)
      _ rfl rfl [.dict [("Ref", .str "w1")], .dict [("Ref", .str "w2")]] rfl
      (.int 2) rfl).2 (by decide)⟩

/-- C7: whenever the sender or the receiver address contains the
postal-machine marker "Postomat", set_additional_parameters forces the
cargo type to "Parcel" and emits the one-element fixed-size volumetric
seat descriptor (40 x 40 x 30, volumetric volume "1", weight stringified);
and whenever backward delivery is requested it emits the one-element
backward-delivery descriptor with the payer role, cargo type "Money" and
the redelivery amount string. -/
theorem set_additional_parameters_postomat_spec (sender : NovaPoshtaSender)
    (receiver : NovaPoshtaReceiver) (w : ℚ) (ct : CargoType) (bd : Bool)
    (amt payer : String) :
    ((strContains sender.address "Postomat" || strContains receiver.address "Postomat") = true →
       (set_additional_parameters sender receiver w ct bd amt payer).getD "cargo_type" .null =
           .str "Parcel"
     ∧ (set_additional_parameters sender receiver w ct bd amt payer).getD "options_seat" .null =
         .list [.dict [("volumetricVolume", .str "1"),
                       ("volumetricWidth", .str "40"),
                       ("volumetricLength", .str "40"),
                       ("volumetricHeight", .str "30"),
                       ("weight", .str (floatStr w))]])
  ∧ (bd = true →
       (set_additional_parameters sender receiver w ct bd amt payer).getD
           "backward_delivery_data" .null =
         .list [.dict [("PayerType", .str payer),
                       ("CargoType", .str "Money"),
                       ("RedeliveryString", .str amt)]]) := by
  constructor
  · intro h
    constructor <;>
      simp [set_additional_parameters, h, CargoType.value, Val.getD, Val.get?, List.lookup]
  · intro h
    subst h
    simp [set_additional_parameters, Val.getD, Val.get?, List.lookup]

/-- Witness for C7: a postomat receiver address with backward delivery
requested. -/
theorem set_additional_parameters_postomat_spec_witness :
    ((set_additional_parameters senderNegWeight
        { receiverTen with address := "Postomat 17" } 3 .CARGO true "25.0" "Sender").getD
          "cargo_type" .null = .str "Parcel"
     ∧ (set_additional_parameters senderNegWeight
        { receiverTen with address := "Postomat 17" } 3 .CARGO true "25.0" "Sender").getD
          "options_seat" .null =
         .list [.dict [("volumetricVolume", .str "1"),
                       ("volumetricWidth", .str "40"),
                       ("volumetricLength", .str "40"),
                       ("volumetricHeight", .str "30"),
                       ("weight", .str (floatStr 3))]])
  ∧ (set_additional_parameters senderNegWeight
        { receiverTen with address := "Postomat 17" } 3 .CARGO true "25.0" "Sender").getD
          "backward_delivery_data" .null =
         .list [.dict [("PayerType", .str "Sender"),
                       ("CargoType", .str "Money"),
                       ("RedeliveryString", .str "25.0")]] :=
  ⟨(set_additional_parameters_postomat_spec senderNegWeight
      { receiverTen with address := "Postomat 17" } 3 .CARGO true "25.0" "Sender").1 rfl,
   (set_additional_parameters_postomat_spec senderNegWeight
      { receiverTen with address := "Postomat 17" } 3 .CARGO true "25.0" "Sender").2 rfl⟩

/-- C8: the delivery descriptor accessor get_payment_method_display returns
the fixed constant "NonCash" for every descriptor, so every property set
built by update_waybill carries PaymentMethod "NonCash" and
AfterpaymentOnGoodsCost, and never BackwardDeliveryData. -/
theorem update_waybill_always_noncash (np : NovaPoshta) (gc : Int) :
    np.delivery.get_payment_method_display = "NonCash"
  ∧ (requestProps (update_waybill np gc)).getD "PaymentMethod" .null = .str "NonCash"
  ∧ hasKey (requestProps (update_waybill np gc)) "AfterpaymentOnGoodsCost" = true
  ∧ hasKey (requestProps (update_waybill np gc)) "BackwardDeliveryData" = false :=
  ⟨rfl, rfl, rfl, rfl⟩

lemma sender_lookup_cons (q a : String × String × String) (b : Val)
    (xs : List ((String × String × String) × Val)) :
    List.lookup q ((a, b) :: xs) = if (q == a) = true then some b else List.lookup q xs := by
  cases hqa : q == a <;> simp [List.lookup, hqa]

lemma sender_lookup_map_replace (k : String × String × String) (v : Val)
    (q : String × String × String) :
    ∀ acc : List ((String × String × String) × Val),
    (acc.map (fun p => if p.1 == k then (k, v) else p)).lookup q =
      (if (q == k) = true then
        (if acc.any (fun p => p.1 == k) = true then some v else none)
       else acc.lookup q)
  | [] => by simp [List.lookup]
  | (a, b) :: rest => by
      by_cases hak : a = k
      · rw [List.map_cons, if_pos (show (((a, b).1 == k) = true) by simp [hak]),
            sender_lookup_cons, sender_lookup_map_replace _ v q rest,
            sender_lookup_cons]
        by_cases hqa : q = a
        · simp [hqa, hak, List.any_cons]
        · have hqk : ¬ q = k := hak ▸ hqa
          simp [hqa, hqk]
      · rw [List.map_cons, if_neg (show ¬ (((a, b).1 == k) = true) by simp [hak]),
            sender_lookup_cons, sender_lookup_map_replace _ v q rest,
            sender_lookup_cons]
        by_cases hqa : q = a
        · have hqk : ¬ q = k := by
            rw [hqa]
            exact hak
          simp [hqa, hqk, hak]
        · have ha : (((a, b) :: rest).any fun p => p.1 == k) =
              (rest.any fun p => p.1 == k) := by simp [List.any_cons, hak]
          rw [ha]
          simp [hqa]

lemma sender_lookup_append_single (k : String × String × String) (v : Val)
    (q : String × String × String) :
    ∀ acc : List ((String × String × String) × Val),
    acc.any (fun p => p.1 == k) = false →
    (acc ++ [(k, v)]).lookup q = if (q == k) = true then some v else acc.lookup q
  | [], _ => by
      cases hqk : q == k <;> simp [sender_lookup_cons, hqk, List.lookup]
  | (a, b) :: rest, h => by
      simp only [List.any_cons, Bool.or_eq_false_iff] at h
      obtain ⟨hak, hrest⟩ := h
      have hakp : ¬ a = k := by simpa using hak
      by_cases hqa : q = a
      · subst hqa
        simp [List.cons_append, sender_lookup_cons, hakp]
      · simp [List.cons_append, sender_lookup_cons, hqa,
              sender_lookup_append_single k v q rest hrest]

lemma sender_lookup_keyInsert (acc : List ((String × String × String) × Val))
    (k : String × String × String) (v : Val) (q : String × String × String) :
    (keyInsert acc k v).lookup q = if (q == k) = true then some v else acc.lookup q := by
  unfold keyInsert
  by_cases hany : acc.any (fun p => p.1 == k) = true
  · rw [if_pos hany, sender_lookup_map_replace, hany]
    simp
  · have hanyf : acc.any (fun p => p.1 == k) = false := by
      cases h : acc.any (fun p => p.1 == k)
      · rfl
      · exact absurd h hany
    rw [if_neg hany]
    exact sender_lookup_append_single k v q acc hanyf

lemma sender_foldl_lookup (q : String × String × String) (data : List Val) :
    ∀ acc : List ((String × String × String) × Val),
    (data.foldl (fun acc d => keyInsert acc (senderKey d) d) acc).lookup q =
      match data.reverse.find? (fun d => senderKey d == q) with
      | some d => some d
      | none => acc.lookup q := by
  induction data with
  | nil =>
      intro acc
      simp
  | cons s rest ih =>
      intro acc
      rw [List.foldl_cons, ih, List.reverse_cons, List.find?_append, sender_lookup_keyInsert]
      cases hfind : rest.reverse.find? (fun d => senderKey d == q)
      · cases hq : senderKey s == q
        · have hq2 : (q == senderKey s) = false := by
            simp at hq ⊢
            exact fun h => hq h.symm
          simp [hfind, List.find?, hq, hq2]
        · have hq2 : (q == senderKey s) = true := by
            simp at hq ⊢
            exact hq.symm
          simp [hfind, List.find?, hq, hq2]
      · simp [hfind]

lemma find_sender_eq_reverse_find (f l m : String) (data : List Val) :
    find_sender_by_full_name f l m data =
      data.reverse.find? (fun x => senderKey x == queryKey f l m) := by
  simp only [find_sender_by_full_name, queryKey]
  rw [sender_foldl_lookup]
  cases hfind : data.reverse.find?
      (fun x => senderKey x == (lowerStr (trimStr f), lowerStr (trimStr l), lowerStr (trimStr m)))
  · simp [hfind, List.lookup]
  · simp [hfind]

/-- C9 counterexample: the two stored records differ only in the casing of
a stored name field (their normalized keys coincide), yet the results of
find_sender_by_full_name on the two one-entry lists differ, because the
returned value is the stored record itself; so the literal claim that the
result is unchanged when a stored field differs only in casing fails. -/
theorem find_sender_stored_casing_counterexample :
    senderKey senderRecA = senderKey senderRecB
  ∧ find_sender_by_full_name "ann" "lee" "may" [senderRecA] = some senderRecA
  ∧ find_sender_by_full_name "ann" "lee" "may" [senderRecB] = some senderRecB
  ∧ ¬ (find_sender_by_full_name "ann" "lee" "may" [senderRecA] =
       find_sender_by_full_name "ann" "lee" "may" [senderRecB]) := by
  refine ⟨rfl, rfl, rfl, fun h => ?_⟩
  have h2 : senderRecA = senderRecB := Option.some.inj h
  have h3 : Val.str "Ann" = Val.str "ANN" :=
    congrArg (fun v => v.getD "first_name" Val.null) h2
  exact absurd (Val.str.inj h3) (by decide)

/-- C9 amended: find_sender_by_full_name is a pure in-memory lookup whose
result is unchanged when any of the three name arguments differ only in
letter casing or surrounding whitespace; it returns the last entry in list
order whose normalized stored key equals the normalized query (so a
matching entry when one exists, an absent result otherwise, and with
duplicate keys the earlier entries are unreachable); and changing a stored
name field only in casing or whitespace preserves whether a match is found
(the returned entry itself is the stored one, so it reflects the stored
spelling). -/
theorem find_sender_by_full_name_spec (f f2 l l2 m m2 : String)
    (data pre post : List Val) (d d2 : Val) :
    (lowerStr (trimStr f) = lowerStr (trimStr f2) →
     lowerStr (trimStr l) = lowerStr (trimStr l2) →
     lowerStr (trimStr m) = lowerStr (trimStr m2) →
       find_sender_by_full_name f l m data = find_sender_by_full_name f2 l2 m2 data)
  ∧ find_sender_by_full_name f l m data =
      data.reverse.find? (fun x => senderKey x == queryKey f l m)
  ∧ (senderKey d = senderKey d2 →
       (find_sender_by_full_name f l m (pre ++ d :: post)).isSome =
       (find_sender_by_full_name f l m (pre ++ d2 :: post)).isSome) := by
  refine ⟨fun h1 h2 h3 => ?_, find_sender_eq_reverse_find f l m data, fun hk => ?_⟩
  · simp only [find_sender_by_full_name, h1, h2, h3]
  · rw [find_sender_eq_reverse_find, find_sender_eq_reverse_find]
    simp only [List.reverse_append, List.reverse_cons, List.append_assoc, List.find?_append]
    cases hp : post.reverse.find? (fun x => senderKey x == queryKey f l m)
    · cases hb : senderKey d == queryKey f l m
      · have hb2 : (senderKey d2 == queryKey f l m) = false := by
          rw [← hk]
          exact hb
        simp [List.find?, hb, hb2]
      · have hb2 : (senderKey d2 == queryKey f l m) = true := by
          rw [← hk]
          exact hb
        simp [List.find?, hb, hb2]
    · simp [hp]

/-- Witness for C9 amended: argument-casing invariance, the last-match
lookup characterization, and stored-field match preservation, at concrete
records. -/
theorem find_sender_by_full_name_spec_witness :
    find_sender_by_full_name " ANN " "lee" "may" [senderRecA] =
      find_sender_by_full_name "ann" "Lee " "MAY" [senderRecA]
  ∧ find_sender_by_full_name "ann" "lee" "may" [senderRecA, senderRecB] =
      ([senderRecA, senderRecB].reverse.find?
        (fun x => senderKey x == queryKey "ann" "lee" "may"))
  ∧ (find_sender_by_full_name "ann" "lee" "may" ([] ++ senderRecA :: [])).isSome =
      (find_sender_by_full_name "ann" "lee" "may" ([] ++ senderRecB :: [])).isSome :=
  ⟨(find_sender_by_full_name_spec " ANN " "ann" "lee" "Lee " "may" "MAY"
      [senderRecA] [] [] senderRecA senderRecA).1 rfl rfl rfl,
   (find_sender_by_full_name_spec "ann" "x" "lee" "x" "may" "x"
      [senderRecA, senderRecB] [] [] senderRecA senderRecA).2.1,
   (find_sender_by_full_name_spec "ann" "x" "lee" "x" "may" "x"
      [] [] [] senderRecA senderRecB).2.2 rfl⟩

/-- C10: in the aggregation of get_sender_data, a per-counterparty contact
call that succeeds with an empty (or absent, both falsy) data list does not
abort and is not an error: that sender still contributes one flattened
record whose contact-derived fields contact_ref, first_name, last_name,
middle_name, phone and email are all None; a contact call whose status is
falsy aborts the whole aggregation with that failure; and whenever the
sender listing succeeds, get_sender_data is exactly this aggregation. -/
theorem get_sender_data_empty_contact_data (contactO : Val → TransportOutcome)
    (s : Val) (rest : List Val) (listO : TransportOutcome) :
    (truthy ((_post (contactO (s.getD "Ref" .null))).getD "status" .null) = true →
     truthy ((_post (contactO (s.getD "Ref" .null))).getD "data" .null) = false →
       sender_loop contactO (s :: rest) =
         (match sender_loop contactO rest with
          | .error v => .error v
          | .ok out => .ok ((Val.dict
              [("agent_ref", s.getD "Ref" .null),
               ("agent_description", s.getD "Description" .null),
               ("agent_type", s.getD "CounterpartyType" .null),
               ("agent_edrpou", s.getD "EDRPOU" .null),
               ("agent_city_ref", s.getD "City" .null),
               ("agent_city", s.getD "CityDescription" .null),
               ("contact_ref", .null), ("first_name", .null), ("last_name", .null),
               ("middle_name", .null), ("phone", .null), ("email", .null)]) :: out)))
  ∧ (truthy ((_post (contactO (s.getD "Ref" .null))).getD "status" .null) = false →
       sender_loop contactO (s :: rest) = .error (_post (contactO (s.getD "Ref" .null))))
  ∧ (truthy ((find_agents_by_property "Sender" 1 listO).getD "status" .null) = true →
       get_sender_data listO contactO =
         (match sender_loop contactO
             (asList ((find_agents_by_property "Sender" 1 listO).getD "agents" .null)) with
          | .error v => v
          | .ok out =>
              .dict [("status", .bool true), ("status_code", .int 200),
                     ("senders", .list out),
                     ("total", (find_agents_by_property "Sender" 1 listO).getD "total"
                        (.int out.length))])) := by
  refine ⟨fun h1 h2 => ?_, fun h => ?_, fun h => ?_⟩
  · simp only [sender_loop, h1, h2, pyOr, Bool.not_true, Bool.false_eq_true, if_false]
    rfl
  · simp [sender_loop, h]
  · simp [get_sender_data, h]

/-- Witness for C10: the empty-contact record, the aborting failure, and
the aggregation equation at concrete fixtures. -/
theorem get_sender_data_empty_contact_data_witness :
    sender_loop contactsEmptyO [agentS] =
      .ok [.dict
        [("agent_ref", .str "ag1"), ("agent_description", .str "Dm"),
         ("agent_type", .null), ("agent_edrpou", .null),
         ("agent_city_ref", .null), ("agent_city", .null),
         ("contact_ref", .null), ("first_name", .null), ("last_name", .null),
         ("middle_name", .null), ("phone", .null), ("email", .null)]]
  ∧ sender_loop (fun _ => .netError "down") [agentS] =
      .error (_post (.netError "down"))
  ∧ get_sender_data agentsListO contactsEmptyO =
      (match sender_loop contactsEmptyO
          (asList ((find_agents_by_property "Sender" 1 agentsListO).getD "agents" .null)) with
       | .error v => v
       | .ok out =>
           .dict [("status", .bool true), ("status_code", .int 200),
                  ("senders", .list out),
                  ("total", (find_agents_by_property "Sender" 1 agentsListO).getD "total"
                     (.int out.length))]) :=
  ⟨(get_sender_data_empty_contact_data contactsEmptyO agentS [] agentsListO).1 rfl rfl,
   (get_sender_data_empty_contact_data (fun _ => .netError "down") agentS []
      agentsListO).2.1 rfl,
   (get_sender_data_empty_contact_data contactsEmptyO agentS [] agentsListO).2.2 rfl⟩

end NovaPoshtaApi
